import Mathlib

/-!
Verification of the Personal Budget Tracker (`src/app.py`).

Shallow embedding conventions:
* Monetary amounts are rationals (`ℚ`), modelling the exact decimal
  arithmetic the specification describes.
* Calendar dates are integers (`ℤ`), the proleptic-Gregorian ordinal used
  by Python's `date.toordinal()`; ordinal 1 (0001-01-01) is a Monday, so
  Python's `date.weekday()` (0 = Monday .. 6 = Sunday) is `(d - 1) % 7`.
  The app stores dates as "YYYY-MM-DD" strings and parses them back with
  `strptime`; that round trip is the identity on valid dates, so the
  embedding keeps the ordinal directly.
* The global `st.session_state.data` dictionary becomes an explicit
  `AppState` value threaded through the operations.
* `save_data()` performs file I/O; the embedding records *whether* a save
  was requested as a `Bool` where a claim depends on it (the delete and
  withdraw operations), since the file contents always mirror the state.
* `datetime.now()` values (the timestamp string and today's date) are
  explicit parameters.
-/

/-- One entry of `data['income']` as built by `add_income`. -/
structure IncomeEntry where
  amount : ℚ
  description : String
  date : ℤ
  timestamp : String
  account : String
deriving Repr, DecidableEq

/-- One entry of `data['expenses']` as built by `add_expense`. -/
structure ExpenseEntry where
  amount : ℚ
  description : String
  category : String
  date : ℤ
  timestamp : String
  account : String
deriving Repr, DecidableEq

/-- One entry of `data['savings_transactions']` as built by
`add_to_savings` (type "deposit") or `withdraw_from_savings`
(type "withdrawal"). -/
structure SavingsTransaction where
  amount : ℚ
  description : String
  date : ℤ
  timestamp : String
  type : String
deriving Repr, DecidableEq

/-- `data['settings']`. -/
structure Settings where
  daily_budget : ℚ
  week_start : String
deriving Repr, DecidableEq

/-- The whole `st.session_state.data` dictionary. -/
structure AppState where
  income : List IncomeEntry
  expenses : List ExpenseEntry
  savings_account : ℚ
  savings_transactions : List SavingsTransaction
  settings : Settings
deriving Repr, DecidableEq

/-- The default state built when no data file exists (`app.py` lines 30-39). -/
def initialData : AppState :=
  { income := []
    expenses := []
    savings_account := 0
    savings_transactions := []
    settings := { daily_budget := 20, week_start := "Monday" } }

/-- `add_income(amount, description, date)`; `ts` is `datetime.now().isoformat()`. -/
def add_income (amount : ℚ) (description : String) (date : ℤ) (ts : String)
    (s : AppState) : AppState :=
  { s with income := s.income ++
      [{ amount := amount, description := description, date := date,
         timestamp := ts, account := "current" }] }

/-- `add_expense(amount, description, category, date)`. -/
def add_expense (amount : ℚ) (description : String) (category : String)
    (date : ℤ) (ts : String) (s : AppState) : AppState :=
  { s with expenses := s.expenses ++
      [{ amount := amount, description := description, category := category,
         date := date, timestamp := ts, account := "current" }] }

/-- `add_to_savings(amount, description, date)`: unconditionally adds the
amount to the balance and appends a deposit transaction. -/
def add_to_savings (amount : ℚ) (description : String) (date : ℤ) (ts : String)
    (s : AppState) : AppState :=
  { s with
      savings_account := s.savings_account + amount
      savings_transactions := s.savings_transactions ++
        [{ amount := amount, description := description, date := date,
           timestamp := ts, type := "deposit" }] }

/-- `withdraw_from_savings(amount, description, date)`: returns the new
state together with the boolean the Python function returns (`True` on
success, `False` when the balance is insufficient; a save happens exactly
on success). -/
def withdraw_from_savings (amount : ℚ) (description : String) (date : ℤ)
    (ts : String) (s : AppState) : AppState × Bool :=
  if s.savings_account ≥ amount then
    ({ s with
        savings_account := s.savings_account - amount
        savings_transactions := s.savings_transactions ++
          [{ amount := amount, description := description, date := date,
             timestamp := ts, type := "withdrawal" }] }, true)
  else (s, false)

/-- `delete_income(index)`: `del data['income'][index]` guarded by
`0 <= index < len(...)`. The boolean records whether `save_data()` ran. -/
def delete_income (index : ℤ) (s : AppState) : AppState × Bool :=
  if 0 ≤ index ∧ index < (s.income.length : ℤ) then
    ({ s with income := s.income.eraseIdx index.toNat }, true)
  else (s, false)

/-- `delete_expense(index)`. -/
def delete_expense (index : ℤ) (s : AppState) : AppState × Bool :=
  if 0 ≤ index ∧ index < (s.expenses.length : ℤ) then
    ({ s with expenses := s.expenses.eraseIdx index.toNat }, true)
  else (s, false)

/-- Python's `date.weekday()` on an ordinal day: 0 = Monday .. 6 = Sunday. -/
def weekday (d : ℤ) : ℤ := (d - 1) % 7

/-- The dictionary returned by `calculate_budget_status`. -/
structure BudgetStatus where
  total_income : ℚ
  total_expenses : ℚ
  current_account_balance : ℚ
  savings_balance : ℚ
  daily_budget : ℚ
  current_week_expenses : ℚ
  expected_spending : ℚ
  rollover : ℚ
  available_today : ℚ
  days_this_week : ℤ
deriving Repr, DecidableEq

/-- `calculate_budget_status()` (`app.py` lines 103-149); `today` is
`datetime.now().date()` as an ordinal. -/
def calculate_budget_status (today : ℤ) (s : AppState) : BudgetStatus :=
  let daily_budget := s.settings.daily_budget
  let total_income := (s.income.map (fun item => item.amount)).sum
  let total_expenses := (s.expenses.map (fun item => item.amount)).sum
  let current_account_balance := total_income - total_expenses
  let week_start := today - weekday today
  let current_week_expenses :=
    ((s.expenses.filter (fun item => week_start ≤ item.date)).map
      (fun item => item.amount)).sum
  let days_this_week := (today - week_start) + 1
  let expected_spending := daily_budget * (days_this_week : ℚ)
  let rollover := expected_spending - current_week_expenses
  let available_today := daily_budget + max 0 rollover
  { total_income := total_income
    total_expenses := total_expenses
    current_account_balance := current_account_balance
    savings_balance := s.savings_account
    daily_budget := daily_budget
    current_week_expenses := current_week_expenses
    expected_spending := expected_spending
    rollover := rollover
    available_today := available_today
    days_this_week := days_this_week }

/-- Sum of the amounts of the transactions whose type is "deposit". -/
def depositSum (l : List SavingsTransaction) : ℚ :=
  ((l.filter (fun t => t.type == "deposit")).map (fun t => t.amount)).sum

/-- Sum of the amounts of the transactions whose type is "withdrawal". -/
def withdrawalSum (l : List SavingsTransaction) : ℚ :=
  ((l.filter (fun t => t.type == "withdrawal")).map (fun t => t.amount)).sum

/-- A user request against the savings account, with the arguments the two
Python functions take. -/
inductive SavingsOp where
  | deposit (amount : ℚ) (description : String) (date : ℤ) (ts : String)
  | withdraw (amount : ℚ) (description : String) (date : ℤ) (ts : String)
deriving Repr, DecidableEq

/-- The amount requested by a savings operation. -/
def SavingsOp.amount : SavingsOp → ℚ
  | .deposit a _ _ _ => a
  | .withdraw a _ _ _ => a

/-- Run one savings operation (a failed withdrawal leaves the state as the
Python function does). -/
def applySavingsOp (s : AppState) : SavingsOp → AppState
  | .deposit a d dt ts => add_to_savings a d dt ts s
  | .withdraw a d dt ts => (withdraw_from_savings a d dt ts s).1

/-- Run a sequence of savings operations from a state. -/
def applySavingsOps (s : AppState) (ops : List SavingsOp) : AppState :=
  ops.foldl applySavingsOp s

/-- The balance/ledger consistency invariant for the savings account. -/
def savingsInv (s : AppState) : Prop :=
  s.savings_account
    = depositSum s.savings_transactions - withdrawalSum s.savings_transactions

lemma applySavingsOp_inv (s : AppState) (op : SavingsOp) (h : savingsInv s) :
    savingsInv (applySavingsOp s op) := by
  cases op with
  | deposit a d dt ts =>
      simp only [savingsInv, applySavingsOp, add_to_savings, depositSum,
        withdrawalSum, List.filter_append, List.map_append, List.sum_append] at h ⊢
      simp [h]
      ring
  | withdraw a d dt ts =>
      simp only [savingsInv, applySavingsOp, withdraw_from_savings] at h ⊢
      by_cases hc : s.savings_account ≥ a
      · simp only [if_pos hc]
        simp only [depositSum, withdrawalSum, List.filter_append, List.map_append,
          List.sum_append] at h ⊢
        simp [h]
        ring
      · simpa [if_neg hc] using h

lemma applySavingsOp_nonneg (s : AppState) (op : SavingsOp)
    (h : 0 ≤ s.savings_account) (ha : 0 < op.amount) :
    0 ≤ (applySavingsOp s op).savings_account := by
  cases op with
  | deposit a d dt ts =>
      simp only [applySavingsOp, add_to_savings]
      exact add_nonneg h (le_of_lt ha)
  | withdraw a d dt ts =>
      simp only [applySavingsOp, withdraw_from_savings]
      by_cases hc : s.savings_account ≥ a
      · simp only [if_pos hc]
        exact sub_nonneg.mpr hc
      · simpa [if_neg hc] using h

lemma applySavingsOps_inv (ops : List SavingsOp) (s : AppState)
    (h : savingsInv s) : savingsInv (applySavingsOps s ops) := by
  induction ops generalizing s with
  | nil => exact h
  | cons op rest ih => exact ih _ (applySavingsOp_inv s op h)

lemma applySavingsOps_nonneg (ops : List SavingsOp) (s : AppState)
    (h : 0 ≤ s.savings_account) (hpos : ∀ op ∈ ops, 0 < op.amount) :
    0 ≤ (applySavingsOps s ops).savings_account := by
  induction ops generalizing s with
  | nil => exact h
  | cons op rest ih =>
      exact ih _ (applySavingsOp_nonneg s op h (hpos op (List.mem_cons_self op rest)))
        (fun o ho => hpos o (List.mem_cons_of_mem op ho))

/-- C1: after any sequence of deposit/withdraw operations from the initial
state, the savings balance equals the sum of deposit amounts minus the sum
of withdrawal amounts recorded in the transaction log, and when every
requested amount is positive the balance is never negative. -/
theorem savings_balance_replay (ops : List SavingsOp) :
    (applySavingsOps initialData ops).savings_account
        = depositSum (applySavingsOps initialData ops).savings_transactions
          - withdrawalSum (applySavingsOps initialData ops).savings_transactions
    ∧ ((∀ op ∈ ops, 0 < op.amount) →
        0 ≤ (applySavingsOps initialData ops).savings_account) := by
  constructor
  · exact applySavingsOps_inv ops initialData
      (by simp [savingsInv, initialData, depositSum, withdrawalSum])
  · intro hpos
    exact applySavingsOps_nonneg ops initialData (by norm_num [initialData]) hpos

/-- Witness for C1: a concrete run (deposit 50, then a withdrawal of 60
that fails) satisfying the positivity hypothesis. -/
theorem savings_balance_replay_witness :
    (applySavingsOps initialData
        [SavingsOp.deposit 50 "d" 1 "t", SavingsOp.withdraw 60 "w" 1 "t"]).savings_account
        = depositSum (applySavingsOps initialData
            [SavingsOp.deposit 50 "d" 1 "t", SavingsOp.withdraw 60 "w" 1 "t"]).savings_transactions
          - withdrawalSum (applySavingsOps initialData
              [SavingsOp.deposit 50 "d" 1 "t", SavingsOp.withdraw 60 "w" 1 "t"]).savings_transactions
    ∧ 0 ≤ (applySavingsOps initialData
        [SavingsOp.deposit 50 "d" 1 "t", SavingsOp.withdraw 60 "w" 1 "t"]).savings_account :=
  ⟨(savings_balance_replay _).1,
   (savings_balance_replay _).2 (by
     intro op hop
     simp only [List.mem_cons, List.not_mem_nil, or_false] at hop
     rcases hop with h | h <;> subst h <;> norm_num [SavingsOp.amount])⟩

/-- C2: a withdrawal strictly larger than the balance returns failure and
leaves the whole state unchanged (every field, no transaction appended,
no save). -/
theorem withdraw_insufficient_unchanged (s : AppState) (amount : ℚ)
    (description : String) (date : ℤ) (ts : String)
    (h : s.savings_account < amount) :
    withdraw_from_savings amount description date ts s = (s, false) := by
  simp only [withdraw_from_savings, ge_iff_le, if_neg (not_le.mpr h)]

/-- Witness for C2: withdrawing 1 from the initial (zero-balance) state. -/
theorem withdraw_insufficient_unchanged_witness :
    withdraw_from_savings 1 "w" 1 "t" initialData = (initialData, false) :=
  withdraw_insufficient_unchanged initialData 1 "w" 1 "t"
    (by norm_num [initialData])

/-- The Wednesday-overspent scenario state: one expense of 70 dated on the
Wednesday (ordinal 3) itself. -/
def wedOverspent : AppState := add_expense 70 "groceries" "Food" 3 "t" initialData

/-- C3: `available_today = daily_budget + max 0 rollover` for every state
and instant, so a negative rollover never pushes it below `daily_budget`;
and the two Wednesday scenarios with `daily_budget = 20`: no expenses gives
rollover 60 and 80 available, 70 spent gives rollover -10 and 20 available. -/
theorem available_today_formula (today : ℤ) (s : AppState) :
    ((calculate_budget_status today s).available_today
        = (calculate_budget_status today s).daily_budget
          + max 0 (calculate_budget_status today s).rollover
      ∧ (calculate_budget_status today s).daily_budget
          ≤ (calculate_budget_status today s).available_today)
    ∧ (weekday 3 = 2
      ∧ (calculate_budget_status 3 initialData).daily_budget = 20
      ∧ (calculate_budget_status 3 initialData).current_week_expenses = 0
      ∧ (calculate_budget_status 3 initialData).rollover = 60
      ∧ (calculate_budget_status 3 initialData).available_today = 80)
    ∧ ((calculate_budget_status 3 wedOverspent).daily_budget = 20
      ∧ (calculate_budget_status 3 wedOverspent).current_week_expenses = 70
      ∧ (calculate_budget_status 3 wedOverspent).rollover = -10
      ∧ (calculate_budget_status 3 wedOverspent).available_today = 20) := by
  refine ⟨⟨rfl, ?_⟩, ?_, ?_⟩
  · simp only [calculate_budget_status]
    exact le_add_of_nonneg_right (le_max_left 0 _)
  · refine ⟨by decide, ?_, ?_, ?_, ?_⟩ <;>
      norm_num [calculate_budget_status, initialData, weekday]
  · refine ⟨?_, ?_, ?_, ?_⟩ <;>
      norm_num [calculate_budget_status, wedOverspent, add_expense, initialData, weekday]

/-- C4 counterexample: on the empty initial state (daily budget 20) on a
Monday, `available_today` is 40, not the daily budget. -/
theorem empty_state_available_ne_daily_budget :
    (calculate_budget_status 1 initialData).daily_budget = 20
    ∧ (calculate_budget_status 1 initialData).available_today = 40
    ∧ (calculate_budget_status 1 initialData).available_today
        ≠ (calculate_budget_status 1 initialData).daily_budget := by
  refine ⟨?_, ?_, ?_⟩ <;> norm_num [calculate_budget_status, initialData, weekday]

/-- C4 (amended): on an empty state the status is total with
`total_income = total_expenses = week_expenses = 0`, `days_elapsed ≥ 1`,
and `available_today = daily_budget + max 0 (daily_budget * days_elapsed)`. -/
theorem empty_state_status (today : ℤ) (s : AppState)
    (hi : s.income = []) (he : s.expenses = []) :
    (calculate_budget_status today s).total_income = 0
    ∧ (calculate_budget_status today s).total_expenses = 0
    ∧ (calculate_budget_status today s).current_week_expenses = 0
    ∧ 1 ≤ (calculate_budget_status today s).days_this_week
    ∧ (calculate_budget_status today s).available_today
        = s.settings.daily_budget
          + max 0 (s.settings.daily_budget
              * ((calculate_budget_status today s).days_this_week : ℚ)) := by
  have hw : 0 ≤ weekday today := Int.emod_nonneg _ (by norm_num)
  refine ⟨?_, ?_, ?_, ?_, ?_⟩
  all_goals simp [calculate_budget_status, hi, he]
  all_goals omega

/-- Witness for C4 (amended): the initial state on a Monday. -/
theorem empty_state_status_witness :
    (calculate_budget_status 1 initialData).total_income = 0
    ∧ (calculate_budget_status 1 initialData).total_expenses = 0
    ∧ (calculate_budget_status 1 initialData).current_week_expenses = 0
    ∧ 1 ≤ (calculate_budget_status 1 initialData).days_this_week
    ∧ (calculate_budget_status 1 initialData).available_today
        = initialData.settings.daily_budget
          + max 0 (initialData.settings.daily_budget
              * ((calculate_budget_status 1 initialData).days_this_week : ℚ)) :=
  empty_state_status 1 initialData rfl rfl

/-- An expense dated after the scenario's "today" (ordinal 3): date 10. -/
def futureExpense : ExpenseEntry :=
  { amount := 5, description := "concert", category := "Entertainment",
    date := 10, timestamp := "t", account := "current" }

/-- C5: the week window. The weekday offset is in 0..6, `today` minus it is
a Monday, `days_this_week` is (today − week_start) + 1, the weekly sum
filters only on `week_start ≤ date` (no upper bound), so appending an
expense dated strictly after today still increases `current_week_expenses`
by its amount. -/
theorem week_window (today : ℤ) (s : AppState) :
    (0 ≤ weekday today ∧ weekday today < 7
      ∧ weekday (today - weekday today) = 0)
    ∧ (calculate_budget_status today s).days_this_week
        = (today - (today - weekday today)) + 1
    ∧ (calculate_budget_status today s).current_week_expenses
        = ((s.expenses.filter (fun e => today - weekday today ≤ e.date)).map
            (fun e => e.amount)).sum
    ∧ ∀ e : ExpenseEntry, today < e.date →
        (calculate_budget_status today
            { s with expenses := s.expenses ++ [e] }).current_week_expenses
          = (calculate_budget_status today s).current_week_expenses + e.amount := by
  have hw : 0 ≤ weekday today := Int.emod_nonneg _ (by norm_num)
  have hw7 : weekday today < 7 := Int.emod_lt_of_pos _ (by norm_num)
  refine ⟨⟨hw, hw7, ?_⟩, rfl, rfl, ?_⟩
  · simp only [weekday]
    omega
  · intro e he
    have hin : today - weekday today ≤ e.date := by omega
    have hin' : today ≤ e.date + weekday today := by omega
    simp [calculate_budget_status, List.filter_append, hin, hin']

/-- Witness for C5: the empty state on a Wednesday, with a future-dated
expense appended. -/
theorem week_window_witness :
    (0 ≤ weekday 3 ∧ weekday 3 < 7 ∧ weekday (3 - weekday 3) = 0)
    ∧ (calculate_budget_status 3
          { initialData with
              expenses := initialData.expenses ++ [futureExpense] }).current_week_expenses
        = (calculate_budget_status 3 initialData).current_week_expenses
          + futureExpense.amount :=
  ⟨(week_window 3 initialData).1,
   (week_window 3 initialData).2.2.2 futureExpense (by norm_num [futureExpense])⟩

/-- The scenario state after adding income 1000 and a "Food" expense 1000. -/
def scenarioAfterAdds : AppState :=
  add_expense 1000 "dinner" "Food" 1 "t1" (add_income 1000 "salary" 1 "t0" initialData)

/-- The scenario state after then deleting the expense at index 0. -/
def scenarioAfterDelete : AppState := (delete_expense 0 scenarioAfterAdds).1

/-- C6: `total_income` and `total_expenses` are the ledger sums and
`current_account_balance` is their difference with no floor (the
Wednesday-overspent state has balance -70 < 0); the income-1000 /
expense-1000 scenario has balance 0, and after deleting the expense the
balance is 1000 with the expenses list empty. -/
theorem current_balance_formula (today : ℤ) (s : AppState) :
    ((calculate_budget_status today s).total_income
        = (s.income.map (fun item => item.amount)).sum
      ∧ (calculate_budget_status today s).total_expenses
          = (s.expenses.map (fun item => item.amount)).sum
      ∧ (calculate_budget_status today s).current_account_balance
          = (calculate_budget_status today s).total_income
            - (calculate_budget_status today s).total_expenses)
    ∧ ((calculate_budget_status 3 wedOverspent).current_account_balance = -70
      ∧ (calculate_budget_status 3 wedOverspent).current_account_balance < 0)
    ∧ (calculate_budget_status 1 scenarioAfterAdds).current_account_balance = 0
    ∧ (calculate_budget_status 1 scenarioAfterDelete).current_account_balance = 1000
    ∧ scenarioAfterDelete.expenses = [] := by
  refine ⟨⟨rfl, rfl, rfl⟩, ⟨?_, ?_⟩, ?_, ?_, ?_⟩ <;>
    norm_num [calculate_budget_status, scenarioAfterDelete, scenarioAfterAdds,
      delete_expense, add_expense, add_income, wedOverspent, initialData]

/-- C7: deleting at a valid index removes exactly that entry in insertion
order (the result is the prefix before it followed by the suffix after it,
one entry shorter) and saves; any index outside `[0, n)` leaves the state
unchanged and does not save. Both for `delete_income` and `delete_expense`. -/
theorem delete_removes_exactly_index (s : AppState) (i : ℤ) :
    (0 ≤ i → i < (s.income.length : ℤ) →
        (delete_income i s).1.income
            = s.income.take i.toNat ++ s.income.drop (i.toNat + 1)
          ∧ (delete_income i s).1.income.length = s.income.length - 1
          ∧ (delete_income i s).2 = true)
    ∧ (¬ (0 ≤ i ∧ i < (s.income.length : ℤ)) → delete_income i s = (s, false))
    ∧ (0 ≤ i → i < (s.expenses.length : ℤ) →
        (delete_expense i s).1.expenses
            = s.expenses.take i.toNat ++ s.expenses.drop (i.toNat + 1)
          ∧ (delete_expense i s).1.expenses.length = s.expenses.length - 1
          ∧ (delete_expense i s).2 = true)
    ∧ (¬ (0 ≤ i ∧ i < (s.expenses.length : ℤ)) → delete_expense i s = (s, false)) := by
  refine ⟨?_, ?_, ?_, ?_⟩
  · intro h0 hl
    have hlt : i.toNat < s.income.length := by omega
    have hcond : 0 ≤ i ∧ i < (s.income.length : ℤ) := ⟨h0, hl⟩
    simp only [delete_income, if_pos hcond]
    refine ⟨List.eraseIdx_eq_take_drop_succ _ _, ?_, trivial⟩
    simp [List.length_eraseIdx, hlt]
  · intro h
    simp only [delete_income, if_neg h]
  · intro h0 hl
    have hlt : i.toNat < s.expenses.length := by omega
    have hcond : 0 ≤ i ∧ i < (s.expenses.length : ℤ) := ⟨h0, hl⟩
    simp only [delete_expense, if_pos hcond]
    refine ⟨List.eraseIdx_eq_take_drop_succ _ _, ?_, trivial⟩
    simp [List.length_eraseIdx, hlt]
  · intro h
    simp only [delete_expense, if_neg h]

/-- A two-income, one-expense state used as a concrete witness. -/
def witnessState : AppState :=
  add_expense 7 "lunch" "Food" 2 "t2"
    (add_income 3 "gift" 2 "t1" (add_income 5 "salary" 1 "t0" initialData))

/-- Witness for C7: in a state with two income entries and one expense,
deleting income index 0 keeps the other entry, and index 5 (and the
negative index -1 for expenses) are no-ops. -/
theorem delete_removes_exactly_index_witness :
    ((delete_income 0 witnessState).1.income
        = witnessState.income.take 0 ++ witnessState.income.drop 1
      ∧ (delete_income 0 witnessState).1.income.length
          = witnessState.income.length - 1
      ∧ (delete_income 0 witnessState).2 = true)
    ∧ delete_income 5 witnessState = (witnessState, false)
    ∧ ((delete_expense 0 witnessState).1.expenses
        = witnessState.expenses.take 0 ++ witnessState.expenses.drop 1
      ∧ (delete_expense 0 witnessState).1.expenses.length
          = witnessState.expenses.length - 1
      ∧ (delete_expense 0 witnessState).2 = true)
    ∧ delete_expense (-1) witnessState = (witnessState, false) :=
  ⟨(delete_removes_exactly_index witnessState 0).1 (by norm_num)
      (by norm_num [witnessState, add_expense, add_income, initialData]),
   (delete_removes_exactly_index witnessState 5).2.1
      (by norm_num [witnessState, add_expense, add_income, initialData]),
   (delete_removes_exactly_index witnessState 0).2.2.1 (by norm_num)
      (by norm_num [witnessState, add_expense, add_income, initialData]),
   (delete_removes_exactly_index witnessState (-1)).2.2.2
      (by norm_num)⟩

/-- C8: a withdrawal succeeds exactly when the requested amount is at most
the balance; withdrawing the exact balance succeeds and leaves it 0. -/
theorem withdraw_success_iff (s : AppState) (amount : ℚ)
    (d : String) (dt : ℤ) (ts : String) :
    ((withdraw_from_savings amount d dt ts s).2 = true
        ↔ amount ≤ s.savings_account)
    ∧ (amount = s.savings_account →
        (withdraw_from_savings amount d dt ts s).2 = true
          ∧ (withdraw_from_savings amount d dt ts s).1.savings_account = 0) := by
  constructor
  · by_cases hc : s.savings_account ≥ amount
    · simp [withdraw_from_savings, hc]
    · simp only [withdraw_from_savings, ge_iff_le, if_neg hc]
      simpa using hc
  · intro heq
    subst heq
    simp [withdraw_from_savings]

/-- Witness for C8: withdrawing the exact balance 50 after a deposit of 50. -/
theorem withdraw_success_iff_witness :
    ((withdraw_from_savings 50 "w" 1 "t"
          (add_to_savings 50 "d" 1 "t" initialData)).2 = true
        ↔ (50 : ℚ) ≤ (add_to_savings 50 "d" 1 "t" initialData).savings_account)
    ∧ ((withdraw_from_savings 50 "w" 1 "t"
          (add_to_savings 50 "d" 1 "t" initialData)).2 = true
      ∧ (withdraw_from_savings 50 "w" 1 "t"
          (add_to_savings 50 "d" 1 "t" initialData)).1.savings_account = 0) :=
  ⟨(withdraw_success_iff (add_to_savings 50 "d" 1 "t" initialData) 50 "w" 1 "t").1,
   (withdraw_success_iff (add_to_savings 50 "d" 1 "t" initialData) 50 "w" 1 "t").2
     (by norm_num [add_to_savings, initialData])⟩

/-- C9: the add operations validate nothing: for any amount (zero or
negative included) and any description (empty included) they append
unconditionally; `add_to_savings` adds the amount to the balance, so a
negative deposit strictly decreases it, and depositing -5 on the initial
state drives the balance negative. -/
theorem add_operations_unvalidated (s : AppState) (amount : ℚ)
    (description category : String) (date : ℤ) (ts : String) :
    (add_income amount description date ts s).income
        = s.income ++ [⟨amount, description, date, ts, "current"⟩]
    ∧ (add_expense amount description category date ts s).expenses
        = s.expenses ++ [⟨amount, description, category, date, ts, "current"⟩]
    ∧ (add_to_savings amount description date ts s).savings_transactions
        = s.savings_transactions ++ [⟨amount, description, date, ts, "deposit"⟩]
    ∧ (add_to_savings amount description date ts s).savings_account
        = s.savings_account + amount
    ∧ (amount < 0 →
        (add_to_savings amount description date ts s).savings_account
          < s.savings_account)
    ∧ (add_to_savings (-5) "" 1 "t" initialData).savings_account < 0 := by
  refine ⟨rfl, rfl, rfl, rfl, ?_, ?_⟩
  · intro hneg
    simp only [add_to_savings]
    linarith
  · norm_num [add_to_savings, initialData]

/-- Witness for C9: the negative deposit -1 on the initial state. -/
theorem add_operations_unvalidated_witness :
    (add_to_savings (-1) "" 1 "t" initialData).savings_account
        < initialData.savings_account
    ∧ (add_to_savings (-5) "" 1 "t" initialData).savings_account < 0 :=
  ⟨(add_operations_unvalidated initialData (-1) "" "" 1 "t").2.2.2.2.1
      (by norm_num),
   (add_operations_unvalidated initialData (-1) "" "" 1 "t").2.2.2.2.2⟩

/-- C10: the delete operations only touch their own ledger: `delete_income`
leaves expenses, savings balance, savings transactions and settings
untouched, and `delete_expense` leaves income, savings balance, savings
transactions and settings untouched, for every index. -/
theorem delete_frame (s : AppState) (i : ℤ) :
    ((delete_income i s).1.expenses = s.expenses
      ∧ (delete_income i s).1.savings_account = s.savings_account
      ∧ (delete_income i s).1.savings_transactions = s.savings_transactions
      ∧ (delete_income i s).1.settings = s.settings)
    ∧ ((delete_expense i s).1.income = s.income
      ∧ (delete_expense i s).1.savings_account = s.savings_account
      ∧ (delete_expense i s).1.savings_transactions = s.savings_transactions
      ∧ (delete_expense i s).1.settings = s.settings) := by
  constructor
  · by_cases hc : 0 ≤ i ∧ i < (s.income.length : ℤ) <;>
      simp [delete_income, hc]
  · by_cases hc : 0 ≤ i ∧ i < (s.expenses.length : ℤ) <;>
      simp [delete_expense, hc]
